import Mathlib

/-!
# Snapshot filter and watermark source

A shallow embedding of `libavfilter/vf_snapshot.c` (the snapshot video filter) and
`libavfilter/vsrc_watermark.c` (the watermark video source), followed by theorems about
their frame-by-frame behaviour.

Modelling conventions

* A pointer that may be `NULL` is an `Option`; the pointee is the payload.
* Calls into libavformat / libavcodec / libc are collaborator calls.  Their results are not
  computed here: each filter function takes a record with the result every collaborator
  call returns during that invocation, and the theorems quantify over these records.
* Each filter function returns, next to its C return value and the new private context, the
  ordered trace of the collaborator calls it made.  `av_log` calls are not traced.
* A `NULL` pointer that the snapshot filter dereferences, or hands to a libavcodec or
  libavformat function that needs the object behind it, ends the run: the result is
  `faults` with the calls made up to that point, and nothing after it takes place.
* `int` values stay far from their bounds and are `Int`; the `int64_t` counter `pts` is
  incremented without bound by the code, so it is kept in two's complement with an explicit
  reduction modulo `2 ^ 64`.
* `av_frame_alloc` and `av_frame_clone` in the watermark source are taken to return a frame;
  the code does not test their results.
* The watermark source reads a file through a finite list of read results, after which
  `av_read_frame` reports `AVERROR_EOF`; the read loop is then a structural recursion.
-/

namespace FFmpeg

/-! ## Common types -/

/-- A NUL-terminated C string: the list of its `char`s before the terminator. -/
abbrev CString := List Char

/-- The `AVRational` of libavutil: numerator and denominator. -/
structure AVRational where
  num : Int
  den : Int
deriving DecidableEq, Repr

/-- The fields of `AVFrame` the two filters read or write; `data` stands for the picture. -/
structure AVFrame where
  width : Int
  height : Int
  sample_aspect_ratio : AVRational
  pts : Int
  data : List Nat
deriving DecidableEq, Repr

/-- An encoded packet; `data` stands for its payload. -/
structure AVPacket where
  data : List Nat
deriving DecidableEq, Repr

/-- An encoder or decoder descriptor.  The field `pix_fmts` is `NULL` when the codec
declares no pixel formats, else it points to the list given here before its `-1`
terminator. -/
structure AVCodec where
  id : Int
  pix_fmts : Option (List Int)
deriving DecidableEq, Repr

/-- The macro `AVERROR(e)` of libavutil on POSIX systems. -/
def AVERROR (e : Int) : Int := -e

def EPERM : Int := 1
def ENOENT : Int := 2
def ENOMEM : Int := 12
def EFAULT : Int := 14
def EEXIST : Int := 17
def EINVAL : Int := 22

/-- The constant `FFERRTAG('U','N','K','N')`. -/
def AVERROR_UNKNOWN : Int := -1313558101

/-- The constant `FFERRTAG('E','O','F',' ')`. -/
def AVERROR_EOF : Int := -541478725

/-- The libavutil copy `av_strlcpy(dst, src, size)`: `dst` receives at most `size - 1`
chars of `src` (and the terminator). -/
def av_strlcpy (src : CString) (size : Nat) : CString :=
  src.take (size - 1)

/-- The libavutil append `av_strlcat(dst, src, size)`: nothing is appended when `dst`
already fills the buffer; otherwise `src` is copied to the end with the room left. -/
def av_strlcat (dst src : CString) (size : Nat) : CString :=
  if size ≤ dst.length + 1 then dst else dst ++ av_strlcpy src (size - dst.length)

/-- The string case of `av_opt_set(obj, name, val, 0)`: the old value is freed and the
field receives `av_strdup(val)`; the call returns `0`, or `AVERROR(ENOMEM)` with the field
left `NULL` when the duplication fails. -/
def av_opt_set (strdup_ok : Bool) (val : CString) : Int × Option CString :=
  if strdup_ok then (0, some val) else (AVERROR ENOMEM, none)

/-! ## vf_snapshot.c -/

/-- The output `AVFormatContext` the snapshot filter allocates: the file name it was
allocated for and `oformat->video_codec`. -/
structure AVFormatContext where
  filename : CString
  video_codec : Int
deriving DecidableEq, Repr

/-- The encoder `AVCodecContext` fields `snapshot_open` sets. -/
structure AVCodecContext where
  codec : AVCodec
  width : Int
  height : Int
  pix_fmt : Int
  time_base : AVRational
deriving DecidableEq, Repr

/-- The struct `SnapshotContext` (without the `AVClass` pointer). -/
structure SnapshotContext where
  dir : Option CString
  filename : Option CString
  bEnable : Int
  ofmt_ctx : Option AVFormatContext
  codec_ctx : Option AVCodecContext
  codec : Option AVCodec
  out_packet : Option AVPacket
deriving DecidableEq, Repr

/-- The collaborator calls of the snapshot filter, with the arguments they receive. -/
inductive Event where
  | mkdir (path : CString)
  | avformat_alloc_output_context2 (filename : CString)
  | av_packet_alloc
  | avcodec_find_encoder (id : Int)
  | avformat_new_stream (ctx : AVFormatContext) (codec : AVCodec)
  | avformat_write_header (ctx : AVFormatContext)
  | avcodec_alloc_context3 (codec : AVCodec)
  | avcodec_open2 (ctx : AVCodecContext)
  | avcodec_encode_video2 (ctx : Option AVCodecContext) (pkt : Option AVPacket)
      (frame : AVFrame)
  | av_interleaved_write_frame (ctx : Option AVFormatContext) (pkt : Option AVPacket)
  | av_write_trailer (ctx : Option AVFormatContext)
  | avcodec_free_context (ctx : Option AVCodecContext)
  | av_packet_free (pkt : Option AVPacket)
  | avformat_free_context (ctx : AVFormatContext)
  | ff_filter_frame (frame : AVFrame)
deriving DecidableEq, Repr

/-- What the collaborators return during one `snapshot_filter_frame` call.  Each of them is
called at most once per frame, so one value per collaborator covers every behaviour. -/
structure SnapshotEnv where
  /-- return value of `mkdir` -/
  mkdir : Int
  /-- value of `errno` after `mkdir` -/
  errno : Int
  /-- return value of `avformat_alloc_output_context2` -/
  alloc_output : Int
  /-- the context it stored, given by its `oformat->video_codec`; `none` is `NULL` -/
  alloc_output_ctx : Option Int
  /-- whether `av_packet_alloc` returned a packet -/
  av_packet_alloc : Bool
  /-- result of `avcodec_find_encoder` -/
  avcodec_find_encoder : Option AVCodec
  /-- whether `avformat_new_stream` returned a stream -/
  avformat_new_stream : Bool
  /-- return value of `avformat_write_header` -/
  avformat_write_header : Int
  /-- whether `avcodec_alloc_context3` returned a context -/
  avcodec_alloc_context3 : Bool
  /-- return value of `avcodec_open2` -/
  avcodec_open2 : Int
  /-- return value of `avcodec_encode_video2`, when it is given an encoder context and a
  packet -/
  avcodec_encode_video2 : Int
  /-- the flag `avcodec_encode_video2` stores in `get_out_frame` -/
  get_out_frame : Int
  /-- the packet contents `avcodec_encode_video2` leaves in `out_packet` -/
  encoded : AVPacket
  /-- return value of `av_interleaved_write_frame` -/
  av_interleaved_write_frame : Int
  /-- return value of `ff_filter_frame` on the output link -/
  ff_filter_frame : Int
deriving DecidableEq, Repr

/-- How a snapshot filter function ends.  Either it returns: C return value, context
afterwards, calls made.  Or a `NULL` pointer is dereferenced, by the filter itself or
inside the last call of the trace, which received it in place of an object it needs; the
function does not return and nothing after that call takes place. -/
inductive SnapshotResult where
  | returns (ret : Int) (state : SnapshotContext) (trace : List Event)
  | faults (trace : List Event)
deriving DecidableEq, Repr

/-- The calls made, however the function ended. -/
def SnapshotResult.trace : SnapshotResult → List Event
  | SnapshotResult.returns _ _ t => t
  | SnapshotResult.faults t => t

/-- The function `snapshot_close`: the encoder context is always freed; packet and format
context are freed only when a format context is held.  Its return value is always `0` and
no caller reads it; the result here is the context afterwards and the calls made. -/
def snapshot_close (s : SnapshotContext) : SnapshotContext × List Event :=
  let t := [Event.avcodec_free_context s.codec_ctx]
  let s1 := { s with codec_ctx := none }
  match s1.ofmt_ctx with
  | some c =>
    ({ s1 with out_packet := none, ofmt_ctx := none },
      t ++ [Event.av_packet_free s1.out_packet, Event.avformat_free_context c])
  | none => (s1, t)

/-- The exit of `snapshot_open` after its `do ... while (0)` block (lines 157-159):
`snapshot_close(ctx); return ret;`. -/
def snapshot_open_fail (ret : Int) (s : SnapshotContext) (t : List Event) : SnapshotResult :=
  let c := snapshot_close s
  SnapshotResult.returns ret c.1 (t ++ c.2)

/-- Lines 100-159 of `snapshot_open`, entered with the buffer `f` holding what the
directory part wrote and `t` the calls made so far. -/
def snapshot_open_output (env : SnapshotEnv) (s : SnapshotContext) (frame : AVFrame)
    (f : CString) (t : List Event) : SnapshotResult :=
  match s.filename with
  | none => SnapshotResult.returns (AVERROR EPERM) s t
  | some name =>
    let f := av_strlcat f name 1024
    let ret := env.alloc_output
    let t := t ++ [Event.avformat_alloc_output_context2 f]
    if ret < 0 then SnapshotResult.returns ret { s with ofmt_ctx := none } t
    else
      match env.alloc_output_ctx with
      | none => SnapshotResult.returns ret { s with ofmt_ctx := none } t
      | some vc =>
        let c : AVFormatContext := { filename := f, video_codec := vc }
        let s := { s with ofmt_ctx := some c }
        let s := { s with out_packet := if env.av_packet_alloc then some { data := [] } else none }
        let t := t ++ [Event.av_packet_alloc]
        let s := { s with codec := env.avcodec_find_encoder }
        let t := t ++ [Event.avcodec_find_encoder c.video_codec]
        match env.avcodec_find_encoder with
        | none => snapshot_open_fail ret s t
        | some codec =>
          let t := t ++ [Event.avformat_new_stream c codec]
          if env.avformat_new_stream = false then snapshot_open_fail AVERROR_UNKNOWN s t
          else
            let ret := env.avformat_write_header
            let t := t ++ [Event.avformat_write_header c]
            if ret < 0 then snapshot_open_fail ret s t
            else
              let t := t ++ [Event.avcodec_alloc_context3 codec]
              if env.avcodec_alloc_context3 = false then
                snapshot_open_fail ret { s with codec_ctx := none } t
              else
                -- line 146 reads `s->codec->pix_fmts[0]`
                match codec.pix_fmts with
                | none => SnapshotResult.faults t
                | some fmts =>
                  let cc : AVCodecContext :=
                    { codec := codec
                      width := frame.width
                      height := frame.height
                      pix_fmt := fmts.headD (-1)
                      time_base := { num := 1, den := 1 } }
                  let s := { s with codec_ctx := some cc }
                  let ret := env.avcodec_open2
                  let t := t ++ [Event.avcodec_open2 cc]
                  if ret < 0 then snapshot_open_fail ret s t
                  else SnapshotResult.returns ret s t

/-- The function `snapshot_open`. -/
def snapshot_open (env : SnapshotEnv) (s : SnapshotContext) (frame : AVFrame) :
    SnapshotResult :=
  if s.ofmt_ctx.isSome then SnapshotResult.returns 0 s []
  else
    match s.dir with
    | some d =>
      if env.mkdir = -1 ∧ env.errno ≠ EEXIST then
        SnapshotResult.returns (AVERROR env.errno) s [Event.mkdir d]
      else
        snapshot_open_output env s frame (av_strlcat (av_strlcpy d 1024) ['/'] 1024)
          [Event.mkdir d]
    | none => snapshot_open_output env s frame [] []

/-- Lines 171-190 of `snapshot_save`, entered with the context `s` and the calls `t` that
`snapshot_open` left.  The encoder reads through the context and the packet it is given,
and the muxer through its format context: a `NULL` in their place is a fault. -/
def snapshot_save_encode (env : SnapshotEnv) (s : SnapshotContext) (frame : AVFrame)
    (t : List Event) : SnapshotResult :=
  let t := t ++ [Event.avcodec_encode_video2 s.codec_ctx s.out_packet frame]
  match s.codec_ctx, s.out_packet with
  | some _, some _ =>
    let ret := env.avcodec_encode_video2
    let s := { s with out_packet := some env.encoded }
    if ret < 0 then
      let c := snapshot_close s
      SnapshotResult.returns ret c.1 (t ++ c.2)
    else if env.get_out_frame ≠ 0 then
      let t := t ++ [Event.av_interleaved_write_frame s.ofmt_ctx s.out_packet]
      match s.ofmt_ctx with
      | none => SnapshotResult.faults t
      | some _ =>
        let ret := env.av_interleaved_write_frame
        let t := t ++ [Event.av_write_trailer s.ofmt_ctx]
        let s := { s with bEnable := 0 }
        let c := snapshot_close s
        SnapshotResult.returns ret c.1 (t ++ c.2)
    else SnapshotResult.returns ret s t
  | _, _ => SnapshotResult.faults t

/-- The function `snapshot_save`. -/
def snapshot_save (env : SnapshotEnv) (s : SnapshotContext) (frame : AVFrame) :
    SnapshotResult :=
  match snapshot_open env s frame with
  | SnapshotResult.faults t => SnapshotResult.faults t
  | SnapshotResult.returns ret s t =>
    if ret < 0 then SnapshotResult.returns ret s t
    else snapshot_save_encode env s frame t

/-- The function `snapshot_filter_frame`. -/
def snapshot_filter_frame (env : SnapshotEnv) (s : SnapshotContext) (frame : AVFrame) :
    SnapshotResult :=
  if s.bEnable ≠ 0 then
    match snapshot_save env s frame with
    | SnapshotResult.faults t => SnapshotResult.faults t
    | SnapshotResult.returns ret s t =>
      let s := if ret ≠ 0 then { s with bEnable := 0 } else s
      SnapshotResult.returns env.ff_filter_frame s (t ++ [Event.ff_filter_frame frame])
  else SnapshotResult.returns env.ff_filter_frame s [Event.ff_filter_frame frame]

/-- The function `snapshot_init`. -/
def snapshot_init (s : SnapshotContext) : Int × SnapshotContext :=
  (0, { s with bEnable := 0 })

/-- The function `snapshot_process_command`; `strdup_ok` is whether the string
duplication inside `av_opt_set` succeeds. -/
def snapshot_process_command (strdup_ok : Bool) (s : SnapshotContext)
    (cmd args : CString) : Int × SnapshotContext :=
  if cmd = "filename".toList then
    let r := av_opt_set strdup_ok args
    (r.1, { s with filename := r.2, bEnable := 1 })
  else (0, s)

/-- The outcome of a sequence of frames: the context at the end, or `none` when a call
faulted, in which case the run ends there; the calls made; the values returned. -/
structure SnapshotRun where
  final : Option SnapshotContext
  trace : List Event
  rets : List Int
deriving DecidableEq, Repr

/-- Frames pushed one after the other through `snapshot_filter_frame`, each with the
collaborator results of its call. -/
def snapshot_filter_frames (s : SnapshotContext) :
    List (SnapshotEnv × AVFrame) → SnapshotRun
  | [] => { final := some s, trace := [], rets := [] }
  | (env, frame) :: rest =>
    match snapshot_filter_frame env s frame with
    | SnapshotResult.faults t => { final := none, trace := t, rets := [] }
    | SnapshotResult.returns ret s1 t =>
      let k := snapshot_filter_frames s1 rest
      { final := k.final, trace := t ++ k.trace, rets := ret :: k.rets }

/-- The frames handed to the output link, in order. -/
def forwarded : List Event → List AVFrame
  | [] => []
  | Event.ff_filter_frame f :: t => f :: forwarded t
  | _ :: t => forwarded t

/-! ## vsrc_watermark.c -/

/-- One iteration of the read loop as the collaborators answer it: the return value of
`av_read_frame`, the `stream_index` of the packet it delivered and, should the packet be
handed to `avcodec_decode_video2`, that call's return value, the flag it stores in
`got_frame` and the contents it leaves in the frame it was given. -/
structure ReadResult where
  ret : Int
  stream_index : Int
  decode_ret : Int
  got_frame : Int
  picture : AVFrame
deriving DecidableEq, Repr

/-- What the demuxer and decoder collaborators answer for one file name: the return values
of `avformat_open_input`, `avformat_find_stream_info`, `av_find_best_stream` (with the
decoder it stores), `avcodec_open2`, and the successive read iterations.  Once `packets`
is used up `av_read_frame` returns `AVERROR_EOF`. -/
structure MediaFile where
  avformat_open_input : Int
  avformat_find_stream_info : Int
  av_find_best_stream : Int
  dec : Option AVCodec
  avcodec_open2 : Int
  packets : List ReadResult
deriving DecidableEq, Repr

/-- The input `AVFormatContext` of the watermark source: the file it was opened on and the
read iterations not consumed yet. -/
structure AVInputContext where
  url : CString
  pending : List ReadResult
deriving DecidableEq, Repr

/-- The decoder context `format_ctx->streams[video_stream_index]->codec`. -/
structure AVStreamCodec where
  stream : Int
deriving DecidableEq, Repr

/-- The struct `WatermarkContext` (without the `AVClass` pointer and the packet buffer). -/
structure WatermarkContext where
  pFileName : Option CString
  format_ctx : Option AVInputContext
  codec_ctx : Option AVStreamCodec
  dec : Option AVCodec
  video_stream_index : Int
  frame : Option AVFrame
  pts : Int
  time_base : AVRational
  frame_rate : AVRational
deriving DecidableEq, Repr

/-- The output parameters of `AVFilterLink` that `watermark_config_props` writes. -/
structure AVFilterLink where
  w : Int
  h : Int
  sample_aspect_ratio : AVRational
  frame_rate : AVRational
  time_base : AVRational
deriving DecidableEq, Repr

/-- Result of `watermark_request_frame`: C return value, context afterwards, and the frames
handed to `ff_filter_frame` on the output link. -/
structure WatermarkResult where
  ret : Int
  state : WatermarkContext
  out : List AVFrame
deriving DecidableEq, Repr

/-- The inline `av_inv_q` of libavutil/rational.h. -/
def av_inv_q (q : AVRational) : AVRational :=
  { num := q.den, den := q.num }

/-- An `int64_t` after an arithmetic step: the two's complement value of `x`. -/
def wrap_int64 (x : Int) : Int :=
  (x + 2 ^ 63) % 2 ^ 64 - 2 ^ 63

/-- The function `watermark_read_one_frame`, run on the read iterations still pending in
the format context opened on `url`.  Every iteration consumes one element, so the loop
ends at the latest with `AVERROR_EOF`. -/
def watermark_read_one_frame (url : CString) (s : WatermarkContext) :
    List ReadResult → Int × WatermarkContext
  | [] => (AVERROR_EOF, { s with format_ctx := some { url := url, pending := [] } })
  | r :: rest =>
    if r.ret < 0 then
      (r.ret, { s with format_ctx := some { url := url, pending := rest } })
    else if r.stream_index ≠ s.video_stream_index then
      watermark_read_one_frame url s rest
    else
      -- `if (!watermark->frame) watermark->frame = av_frame_alloc();` and the decoder
      -- writes into that frame
      let s := { s with frame := some r.picture }
      if r.decode_ret < 0 then watermark_read_one_frame url s rest
      else if r.got_frame = 0 then watermark_read_one_frame url s rest
      else (r.decode_ret, { s with format_ctx := some { url := url, pending := rest } })

/-- The function `watermark_open`; `fs` gives the collaborators' answers per file name. -/
def watermark_open (fs : CString → MediaFile) (s : WatermarkContext) :
    Int × WatermarkContext :=
  match s.pFileName with
  | none => (AVERROR EINVAL, s)
  | some name =>
    let file := fs name
    if file.avformat_open_input < 0 then
      (file.avformat_open_input, { s with format_ctx := none })
    else
      let s := { s with format_ctx := some { url := name, pending := file.packets } }
      let ret := file.av_find_best_stream
      let s := { s with dec := file.dec }
      if ret < 0 then (ret, s)
      else
        let s := { s with video_stream_index := ret }
        let s := { s with codec_ctx := some { stream := ret } }
        if file.avcodec_open2 < 0 then (file.avcodec_open2, s)
        else watermark_read_one_frame name s file.packets

/-- The function `watermark_close`. -/
def watermark_close (s : WatermarkContext) : WatermarkContext :=
  let s := if s.frame.isSome then { s with frame := none } else s
  let s := if s.codec_ctx.isSome then { s with codec_ctx := none } else s
  let s := if s.format_ctx.isSome then { s with format_ctx := none } else s
  s

/-- The function `watermark_init`. -/
def watermark_init (fs : CString → MediaFile) (s : WatermarkContext) :
    Int × WatermarkContext :=
  let s := { s with time_base := av_inv_q s.frame_rate }
  let s := { s with pts := 0 }
  match s.pFileName with
  | none => (AVERROR EINVAL, s)
  | some _ => watermark_open fs s

/-- The function `watermark_config_props`, on the output link `outlink`. -/
def watermark_config_props (s : WatermarkContext) (outlink : AVFilterLink) :
    Int × AVFilterLink :=
  match s.frame with
  | none => (AVERROR EFAULT, outlink)
  | some frame =>
    (0, { outlink with
            w := frame.width
            h := frame.height
            sample_aspect_ratio := frame.sample_aspect_ratio
            frame_rate := s.frame_rate
            time_base := s.time_base })

/-- The function `watermark_request_frame`; `down` is what `ff_filter_frame` returns.
The clone made by `av_frame_clone` carries every field of the cached frame. -/
def watermark_request_frame (down : Int) (s : WatermarkContext) : WatermarkResult :=
  match s.frame with
  | some cached =>
    let frame := cached
    let frame := { frame with pts := s.pts }
    let s := { s with pts := wrap_int64 (s.pts + 1) }
    { ret := down, state := s, out := [frame] }
  | none => { ret := 0, state := s, out := [] }

/-- The function `watermark_process_command`; `strdup_ok` is whether the string
duplication inside `av_opt_set` succeeds. -/
def watermark_process_command (strdup_ok : Bool) (fs : CString → MediaFile)
    (s : WatermarkContext) (cmd args : CString) : Int × WatermarkContext :=
  if cmd = "filename".toList then
    let r := av_opt_set strdup_ok args
    let s := { s with pFileName := r.2 }
    if r.1 = 0 then
      let s := watermark_close s
      let o := watermark_open fs s
      (0, o.2)
    else (0, s)
  else (0, s)

/-- Consecutive `watermark_request_frame` calls, one per downstream result in the list:
context afterwards and the frames emitted, in order. -/
def watermark_request_frames (s : WatermarkContext) :
    List Int → WatermarkContext × List AVFrame
  | [] => (s, [])
  | down :: rest =>
    let r := watermark_request_frame down s
    let k := watermark_request_frames r.state rest
    (k.1, r.out ++ k.2)

/-- The private context before `watermark_init`: zeroed by the framework, with the options
`filename` and `rate` stored. -/
def watermark_fresh (filename : Option CString) (rate : AVRational) : WatermarkContext :=
  { pFileName := filename
    format_ctx := none
    codec_ctx := none
    dec := none
    video_stream_index := 0
    frame := none
    pts := 0
    time_base := { num := 0, den := 0 }
    frame_rate := rate }

/-- The private context of the snapshot filter before `snapshot_init`: zeroed by the
framework, with the options `directory` and `filename` stored. -/
def snapshot_fresh (dir filename : Option CString) : SnapshotContext :=
  { dir := dir
    filename := filename
    bEnable := 0
    ofmt_ctx := none
    codec_ctx := none
    codec := none
    out_packet := none }

/-! ## Vocabulary of the statements -/

/-- The calls by which `snapshot_open` acquires something: creating the directory,
allocating the output context, allocating or opening the encoder context. -/
def Event.acquires : Event → Bool
  | Event.mkdir _ => true
  | Event.avformat_alloc_output_context2 _ => true
  | Event.avcodec_alloc_context3 _ => true
  | Event.avcodec_open2 _ => true
  | _ => false

/-- A call that belongs to the job running on the output context `c` with the encoder
context `e`: it acquires nothing, it encodes with `e` only, and it writes to `c` only. -/
def Event.within (c : AVFormatContext) (e : AVCodecContext) : Event → Prop
  | Event.avcodec_encode_video2 ctx _ _ => ctx = some e
  | Event.av_interleaved_write_frame ctx _ => ctx = some c
  | Event.av_write_trailer ctx => ctx = some c
  | ev => ev.acquires = false

/-- Output contexts open after the calls of a trace, starting from `n`: one more for each
`avformat_alloc_output_context2` call, one less for each `avformat_free_context` call. -/
def containers_open (n : Int) : List Event → Int
  | [] => n
  | Event.avformat_alloc_output_context2 _ :: t => containers_open (n + 1) t
  | Event.avformat_free_context _ :: t => containers_open (n - 1) t
  | _ :: t => containers_open n t

/-- The collaborator results of a snapshot job in which every call succeeds and the encoder
returns the packet on the first submission; `vc` is the video codec of the guessed output
format, `codec` the encoder found for it and `fmts` the pixel formats that encoder
declares. -/
def SnapshotEnv.job_succeeds (env : SnapshotEnv) (vc : Int) (codec : AVCodec)
    (fmts : List Int) : Prop :=
  ¬ (env.mkdir = -1 ∧ env.errno ≠ EEXIST) ∧
  0 ≤ env.alloc_output ∧ env.alloc_output_ctx = some vc ∧
  env.av_packet_alloc = true ∧
  env.avcodec_find_encoder = some codec ∧ codec.pix_fmts = some fmts ∧
  env.avformat_new_stream = true ∧
  0 ≤ env.avformat_write_header ∧
  env.avcodec_alloc_context3 = true ∧
  0 ≤ env.avcodec_open2 ∧
  0 ≤ env.avcodec_encode_video2 ∧ env.get_out_frame ≠ 0 ∧
  0 ≤ env.av_interleaved_write_frame

instance (env : SnapshotEnv) (vc : Int) (codec : AVCodec) (fmts : List Int) :
    Decidable (env.job_succeeds vc codec fmts) := by
  unfold SnapshotEnv.job_succeeds
  infer_instance

/-- The calls of a trace that concern an output container: allocating one, writing a
packet or the trailer, freeing one. -/
def container_calls : List Event → List Event
  | [] => []
  | Event.avformat_alloc_output_context2 f :: t =>
    Event.avformat_alloc_output_context2 f :: container_calls t
  | Event.av_interleaved_write_frame ctx pkt :: t =>
    Event.av_interleaved_write_frame ctx pkt :: container_calls t
  | Event.av_write_trailer ctx :: t => Event.av_write_trailer ctx :: container_calls t
  | Event.avformat_free_context c :: t => Event.avformat_free_context c :: container_calls t
  | _ :: t => container_calls t

/-- A frame call during which the encoder accepts the frame and returns no packet yet. -/
def SnapshotEnv.buffers (env : SnapshotEnv) : Prop :=
  env.avcodec_encode_video2 = 0 ∧ env.get_out_frame = 0

instance (env : SnapshotEnv) : Decidable env.buffers := by
  unfold SnapshotEnv.buffers
  infer_instance

/-- A frame call during which the encoder returns a packet. -/
def SnapshotEnv.produces (env : SnapshotEnv) : Prop :=
  0 ≤ env.avcodec_encode_video2 ∧ env.get_out_frame ≠ 0

instance (env : SnapshotEnv) : Decidable env.produces := by
  unfold SnapshotEnv.produces
  infer_instance

/-- The context of a snapshot filter whose job on the output context `c` with the encoder
context `e` is still running, or which is disarmed. -/
def job_or_disarmed (c : AVFormatContext) (e : AVCodecContext) (s : SnapshotContext) : Prop :=
  (s.ofmt_ctx = some c ∧ s.codec_ctx = some e) ∨ s.bEnable = 0

/-- The first decoded video frame of a file, in the words of the specification: packets are
taken in order until the input ends or a read fails; a packet of the selected video stream
whose decoding succeeds and outputs a picture yields that picture. -/
def first_decoded_frame (video_stream_index : Int) : List ReadResult → Option AVFrame
  | [] => none
  | r :: rest =>
    if r.ret < 0 then none
    else if r.stream_index = video_stream_index ∧ 0 ≤ r.decode_ret ∧ r.got_frame ≠ 0 then
      some r.picture
    else first_decoded_frame video_stream_index rest

/-- A callback of the watermark source after `watermark_init`, with what its collaborators
answer: a frame request or a command. -/
inductive WatermarkOp where
  | request_frame (down : Int)
  | process_command (strdup_ok : Bool) (cmd args : CString)
deriving DecidableEq, Repr

/-- The context after a sequence of callbacks. -/
def watermark_run (fs : CString → MediaFile) (s : WatermarkContext) :
    List WatermarkOp → WatermarkContext
  | [] => s
  | WatermarkOp.request_frame down :: rest =>
    watermark_run fs (watermark_request_frame down s).state rest
  | WatermarkOp.process_command strdup_ok cmd args :: rest =>
    watermark_run fs (watermark_process_command strdup_ok fs s cmd args).2 rest

/-- The context `watermark_open` hands to the read loop once the file is open, the video
stream is selected and the decoder is open. -/
def watermark_opened (file : MediaFile) (name : CString) (s : WatermarkContext) :
    WatermarkContext :=
  { s with
    format_ctx := some { url := name, pending := file.packets }
    dec := file.dec
    video_stream_index := file.av_find_best_stream
    codec_ctx := some { stream := file.av_find_best_stream } }

/-! ## Sample inputs -/

/-- A frame of 4x2 pixels. -/
def sample_frame : AVFrame :=
  { width := 4, height := 2, sample_aspect_ratio := { num := 1, den := 1 }, pts := 7,
    data := [1, 2] }

/-- The encoder the codec catalogue holds for codec id 61. -/
def sample_encoder : AVCodec := { id := 61, pix_fmts := some [2] }

/-- A frame call during which every collaborator succeeds and the encoder returns the
packet for the frame it is given. -/
def env_ok : SnapshotEnv :=
  { mkdir := 0, errno := 0, alloc_output := 0, alloc_output_ctx := some 61,
    av_packet_alloc := true, avcodec_find_encoder := some sample_encoder,
    avformat_new_stream := true, avformat_write_header := 0,
    avcodec_alloc_context3 := true, avcodec_open2 := 0, avcodec_encode_video2 := 0,
    get_out_frame := 1, encoded := { data := [9] }, av_interleaved_write_frame := 0,
    ff_filter_frame := 0 }

/-- As `env_ok`, but the encoder accepts the frame without returning a packet yet. -/
def env_buffering : SnapshotEnv := { env_ok with get_out_frame := 0 }

/-- As `env_ok`, but `mkdir` fails with `EACCES`. -/
def env_mkdir_fails : SnapshotEnv := { env_ok with mkdir := -1, errno := 13 }

/-- As `env_buffering`, but `avcodec_find_encoder` finds no encoder. -/
def env_no_encoder : SnapshotEnv := { env_buffering with avcodec_find_encoder := none }

/-- As `env_buffering`, but `avcodec_alloc_context3` returns `NULL`. -/
def env_no_context : SnapshotEnv := { env_buffering with avcodec_alloc_context3 := false }

/-- The snapshot filter with its default options, after `snapshot_init`. -/
def sample_snapshot : SnapshotContext :=
  (snapshot_init (snapshot_fresh (some "snapshot".toList) (some "snapshot.png".toList))).2

/-- The sample filter after the command `filename x.png`. -/
def sample_armed : SnapshotContext :=
  (snapshot_process_command true sample_snapshot "filename".toList "x.png".toList).2

/-- The output context allocated for `snapshot/x.png`. -/
def sample_container : AVFormatContext :=
  { filename := "snapshot/x.png".toList, video_codec := 61 }

/-- The encoder context `snapshot_open` sets up for `sample_frame`. -/
def sample_codec_ctx : AVCodecContext :=
  { codec := sample_encoder, width := 4, height := 2, pix_fmt := 2,
    time_base := { num := 1, den := 1 } }

/-- The sample filter with a job in flight: armed, then given one frame for which the
encoder returned no packet. -/
def sample_in_flight : SnapshotContext :=
  { dir := some "snapshot".toList
    filename := some "x.png".toList
    bEnable := 1
    ofmt_ctx := some sample_container
    codec_ctx := some sample_codec_ctx
    codec := some sample_encoder
    out_packet := some { data := [9] } }

/-- As `env_ok`, but `av_packet_alloc` returns `NULL`. -/
def env_no_packet : SnapshotEnv := { env_ok with av_packet_alloc := false }

/-- As `env_ok`, but the encoder found declares no pixel formats (`pix_fmts` is `NULL`),
as the raw video encoder does. -/
def env_no_pix_fmts : SnapshotEnv :=
  { env_ok with avcodec_find_encoder := some { id := 13, pix_fmts := none } }

/-- A file name of 1100 chars. -/
def long_name : CString := List.replicate 1100 'a'

/-- A decoded picture of 64x48 pixels; `tag` tells pictures apart. -/
def sample_picture (tag : Nat) : AVFrame :=
  { width := 64, height := 48, sample_aspect_ratio := { num := 1, den := 1 }, pts := 0,
    data := [tag] }

/-- A frame as `av_frame_alloc` returns it: no picture, `pts` at `AV_NOPTS_VALUE`. -/
def blank_frame : AVFrame :=
  { width := 0, height := 0, sample_aspect_ratio := { num := 0, den := 1 },
    pts := -9223372036854775808, data := [] }

/-- An image file: one video packet, which decodes to `pic`. -/
def image_file (pic : AVFrame) : MediaFile :=
  { avformat_open_input := 0, avformat_find_stream_info := 0, av_find_best_stream := 0,
    dec := some { id := 61, pix_fmts := some [2] }, avcodec_open2 := 0,
    packets := [{ ret := 0, stream_index := 0, decode_ret := 100, got_frame := 1,
                  picture := pic }] }

/-- A file with a video stream whose only packet is consumed by the decoder without a
picture coming out; the next read reports the end of the file. -/
def truncated_file : MediaFile :=
  { avformat_open_input := 0, avformat_find_stream_info := 0, av_find_best_stream := 0,
    dec := some { id := 27, pix_fmts := some [0] }, avcodec_open2 := 0,
    packets := [{ ret := 0, stream_index := 0, decode_ret := 100, got_frame := 0,
                  picture := blank_frame }] }

/-- A path on which `avformat_open_input` fails with `AVERROR(ENOENT)`. -/
def missing_file : MediaFile :=
  { avformat_open_input := AVERROR ENOENT, avformat_find_stream_info := 0,
    av_find_best_stream := 0, dec := none, avcodec_open2 := 0, packets := [] }

/-- A directory with two images, one truncated video and nothing else. -/
def sample_fs (name : CString) : MediaFile :=
  if name = "a.png".toList then image_file (sample_picture 1)
  else if name = "b.png".toList then image_file (sample_picture 2)
  else if name = "cut.mp4".toList then truncated_file
  else missing_file

/-- The watermark source configured with `filename=a.png:rate=25`, before `watermark_init`. -/
def sample_watermark : WatermarkContext :=
  watermark_fresh (some "a.png".toList) { num := 25, den := 1 }

/-! ## Theorems on vf_snapshot.c -/

set_option maxRecDepth 100000

theorem SnapshotResult.trace_returns (ret : Int) (s : SnapshotContext) (t : List Event) :
    (SnapshotResult.returns ret s t).trace = t := rfl

theorem SnapshotResult.trace_faults (t : List Event) :
    (SnapshotResult.faults t).trace = t := rfl

theorem forwarded_append (a b : List Event) :
    forwarded (a ++ b) = forwarded a ++ forwarded b := by
  induction a with
  | nil => rfl
  | cons e t ih => cases e <;> simp [forwarded, ih]

theorem snapshot_close_forwarded (s : SnapshotContext) :
    forwarded (snapshot_close s).2 = [] := by
  unfold snapshot_close
  cases h : s.ofmt_ctx <;> simp [forwarded, h]

theorem snapshot_open_fail_forwarded (ret : Int) (s : SnapshotContext) (t : List Event) :
    forwarded (snapshot_open_fail ret s t).trace = forwarded t := by
  simp [snapshot_open_fail, SnapshotResult.trace_returns, forwarded_append,
    snapshot_close_forwarded]

theorem snapshot_open_output_forwarded (env : SnapshotEnv) (s : SnapshotContext)
    (frame : AVFrame) (f : CString) (t : List Event) :
    forwarded (snapshot_open_output env s frame f t).trace = forwarded t := by
  unfold snapshot_open_output
  dsimp only
  repeat' split
  all_goals simp [SnapshotResult.trace_returns, SnapshotResult.trace_faults,
    forwarded_append, forwarded, snapshot_open_fail_forwarded]

theorem snapshot_open_forwarded (env : SnapshotEnv) (s : SnapshotContext) (frame : AVFrame) :
    forwarded (snapshot_open env s frame).trace = [] := by
  unfold snapshot_open
  repeat' split
  all_goals simp [SnapshotResult.trace_returns, forwarded, snapshot_open_output_forwarded]

theorem snapshot_save_encode_forwarded (env : SnapshotEnv) (s : SnapshotContext)
    (frame : AVFrame) (t : List Event) :
    forwarded (snapshot_save_encode env s frame t).trace = forwarded t := by
  unfold snapshot_save_encode
  dsimp only
  repeat' split
  all_goals simp [SnapshotResult.trace_returns, SnapshotResult.trace_faults,
    forwarded_append, forwarded, snapshot_close_forwarded]

theorem snapshot_save_forwarded (env : SnapshotEnv) (s : SnapshotContext) (frame : AVFrame) :
    forwarded (snapshot_save env s frame).trace = [] := by
  have ho := snapshot_open_forwarded env s frame
  unfold snapshot_save
  cases h : snapshot_open env s frame with
  | faults t =>
    rw [h] at ho
    simpa [SnapshotResult.trace_returns, SnapshotResult.trace_faults] using ho
  | returns ret s1 t =>
    rw [h] at ho
    have ht : forwarded t = [] := by simpa [SnapshotResult.trace_returns, SnapshotResult.trace_faults] using ho
    dsimp only
    split
    · simpa [SnapshotResult.trace_returns, SnapshotResult.trace_faults] using ht
    · rw [snapshot_save_encode_forwarded, ht]

/-- When `snapshot_filter_frame` returns, it has handed exactly the frame it received to
the output link, once and as its last call, and its return value is the one of
`ff_filter_frame`; when it faults, the frame has not been handed on. -/
theorem snapshot_filter_frame_forwards_on_return (env : SnapshotEnv) (s : SnapshotContext)
    (frame : AVFrame) :
    (∀ ret s1 t, snapshot_filter_frame env s frame = SnapshotResult.returns ret s1 t →
      ret = env.ff_filter_frame ∧ forwarded t = [frame] ∧
      t.getLast? = some (Event.ff_filter_frame frame)) ∧
    (∀ t, snapshot_filter_frame env s frame = SnapshotResult.faults t → forwarded t = []) := by
  have hs := snapshot_save_forwarded env s frame
  unfold snapshot_filter_frame
  by_cases hb : s.bEnable = 0
  · simp [hb, forwarded]
  · simp only [ne_eq, hb, not_false_eq_true, if_true]
    cases h : snapshot_save env s frame with
    | faults t0 =>
      rw [h] at hs
      simp only [SnapshotResult.trace_returns, SnapshotResult.trace_faults] at hs
      simp [hs]
    | returns ret0 s0 t0 =>
      rw [h] at hs
      simp only [SnapshotResult.trace_returns, SnapshotResult.trace_faults] at hs
      simp only [SnapshotResult.returns.injEq, and_imp, reduceCtorEq, false_implies,
        implies_true, and_true]
      intro ret s1 t hret _ ht
      subst hret ht
      simp [forwarded_append, hs, forwarded]

theorem forwarded_map_filter_frame (inputs : List (SnapshotEnv × AVFrame)) :
    forwarded (inputs.map (fun x => Event.ff_filter_frame x.2)) = inputs.map (fun x => x.2) := by
  induction inputs with
  | nil => rfl
  | cons x rest ih => simpa [forwarded] using ih

theorem snapshot_filter_frames_disarmed (s : SnapshotContext) (h : s.bEnable = 0)
    (inputs : List (SnapshotEnv × AVFrame)) :
    snapshot_filter_frames s inputs =
      { final := some s
        trace := inputs.map (fun x => Event.ff_filter_frame x.2)
        rets := inputs.map (fun x => x.1.ff_filter_frame) } := by
  induction inputs with
  | nil => rfl
  | cons x rest ih =>
    obtain ⟨env, frame⟩ := x
    simp [snapshot_filter_frames, snapshot_filter_frame, h, ih]

/-- C8: for every sequence of frames pushed through `snapshot_filter_frame` of a disarmed
filter (`bEnable = 0`, as `snapshot_init` leaves it), whatever the collaborators would
answer: every call returns, the context at the end is the one at the start, the only calls
made are the `ff_filter_frame` calls on the input frames, in order (no directory creation,
no container, no encode, no write), and the frames handed to the output are exactly the
input frames. -/
theorem snapshot_disarmed_is_identity (s : SnapshotContext) (h : s.bEnable = 0)
    (inputs : List (SnapshotEnv × AVFrame)) :
    snapshot_filter_frames s inputs =
      { final := some s
        trace := inputs.map (fun x => Event.ff_filter_frame x.2)
        rets := inputs.map (fun x => x.1.ff_filter_frame) } ∧
    forwarded (snapshot_filter_frames s inputs).trace = inputs.map (fun x => x.2) := by
  have key := snapshot_filter_frames_disarmed s h inputs
  refine ⟨key, ?_⟩
  rw [key]
  exact forwarded_map_filter_frame inputs

theorem snapshot_disarmed_is_identity_witness :
    sample_snapshot.bEnable = 0 ∧
    forwarded (snapshot_filter_frames sample_snapshot
        [(env_ok, sample_frame), (env_no_encoder, { sample_frame with pts := 8 })]).trace =
      [sample_frame, { sample_frame with pts := 8 }] :=
  ⟨by decide, (snapshot_disarmed_is_identity sample_snapshot (by decide) _).2⟩

theorem snapshot_filter_frame_in_flight (c : AVFormatContext) (e : AVCodecContext)
    (env : SnapshotEnv) (s : SnapshotContext) (frame : AVFrame)
    (h : job_or_disarmed c e s) :
    (∀ ev ∈ (snapshot_filter_frame env s frame).trace, Event.within c e ev) ∧
    ∀ ret s1 t, snapshot_filter_frame env s frame = SnapshotResult.returns ret s1 t →
      job_or_disarmed c e s1 := by
  by_cases hb : s.bEnable = 0
  · simp [snapshot_filter_frame, hb, job_or_disarmed, Event.within, Event.acquires,
      SnapshotResult.trace_returns]
  · rcases h with ⟨hc, he⟩ | h0
    · have ho : snapshot_open env s frame = SnapshotResult.returns 0 s [] := by
        simp [snapshot_open, hc]
      cases hp : s.out_packet with
      | none =>
        simp [snapshot_filter_frame, snapshot_save, snapshot_save_encode, ho, hb, hc, he, hp,
          SnapshotResult.trace_faults, Event.within]
      | some p =>
        by_cases h2 : env.avcodec_encode_video2 < 0 <;> by_cases h3 : env.get_out_frame = 0 <;>
          by_cases h4 : env.avcodec_encode_video2 = 0 <;>
          by_cases h5 : env.av_interleaved_write_frame = 0 <;>
          simp [snapshot_filter_frame, snapshot_save, snapshot_save_encode, snapshot_close,
            ho, hb, hc, he, hp, h2, h3, h4, h5, job_or_disarmed, Event.within, Event.acquires,
            SnapshotResult.trace_returns]
    · exact absurd h0 hb

theorem snapshot_filter_frames_in_flight (c : AVFormatContext) (e : AVCodecContext)
    (inputs : List (SnapshotEnv × AVFrame)) (s : SnapshotContext)
    (h : job_or_disarmed c e s) :
    ∀ ev ∈ (snapshot_filter_frames s inputs).trace, Event.within c e ev := by
  induction inputs generalizing s with
  | nil => simp [snapshot_filter_frames]
  | cons x rest ih =>
    obtain ⟨env, frame⟩ := x
    have hstep := snapshot_filter_frame_in_flight c e env s frame h
    simp only [snapshot_filter_frames]
    cases hr : snapshot_filter_frame env s frame with
    | faults t =>
      rw [hr] at hstep
      simpa [SnapshotResult.trace_faults] using hstep.1
    | returns ret s1 t =>
      rw [hr] at hstep
      intro ev hev
      simp only [List.mem_append] at hev
      rcases hev with hev | hev
      · exact hstep.1 ev (by simpa [SnapshotResult.trace_returns] using hev)
      · exact ih s1 (hstep.2 ret s1 t rfl) ev hev

theorem Event.within_acquires {c : AVFormatContext} {e : AVCodecContext} {ev : Event}
    (h : Event.within c e ev) : ev.acquires = false := by
  cases ev <;> first | rfl | exact h

theorem containers_open_le (t : List Event) (n : Int)
    (h : ∀ ev ∈ t, ev.acquires = false) : containers_open n t ≤ n := by
  induction t generalizing n with
  | nil => simp [containers_open]
  | cons ev rest ih =>
    have hrest : ∀ x ∈ rest, x.acquires = false := fun x hx => h x (List.mem_cons_of_mem _ hx)
    have hev := h ev (List.mem_cons_self _ _)
    cases ev <;> simp only [containers_open] <;>
      first
      | exact ih _ hrest
      | exact le_trans (ih _ hrest) (by omega)
      | simp [Event.acquires] at hev

theorem container_calls_append (a b : List Event) :
    container_calls (a ++ b) = container_calls a ++ container_calls b := by
  induction a with
  | nil => rfl
  | cons e t ih => cases e <;> simp [container_calls, ih]

theorem container_calls_map_filter_frame (inputs : List (SnapshotEnv × AVFrame)) :
    container_calls (inputs.map (fun x => Event.ff_filter_frame x.2)) = [] := by
  induction inputs with
  | nil => rfl
  | cons x rest ih => simpa [container_calls] using ih

theorem snapshot_filter_frame_buffers (env : SnapshotEnv) (s : SnapshotContext)
    (frame : AVFrame) (c : AVFormatContext) (e : AVCodecContext) (p : AVPacket)
    (hc : s.ofmt_ctx = some c) (he : s.codec_ctx = some e) (hp : s.out_packet = some p)
    (hb : s.bEnable ≠ 0) (henv : env.buffers) :
    snapshot_filter_frame env s frame =
      SnapshotResult.returns env.ff_filter_frame { s with out_packet := some env.encoded }
        [Event.avcodec_encode_video2 (some e) (some p) frame, Event.ff_filter_frame frame] := by
  obtain ⟨h1, h2⟩ := henv
  simp [snapshot_filter_frame, snapshot_save, snapshot_save_encode, snapshot_open, hc, he, hp,
    hb, h1, h2]

theorem snapshot_filter_frame_produces (env : SnapshotEnv) (s : SnapshotContext)
    (frame : AVFrame) (c : AVFormatContext) (e : AVCodecContext) (p : AVPacket)
    (hc : s.ofmt_ctx = some c) (he : s.codec_ctx = some e) (hp : s.out_packet = some p)
    (hb : s.bEnable ≠ 0) (henv : env.produces) :
    snapshot_filter_frame env s frame =
      SnapshotResult.returns env.ff_filter_frame
        { s with bEnable := 0, ofmt_ctx := none, codec_ctx := none, out_packet := none }
        [Event.avcodec_encode_video2 (some e) (some p) frame,
         Event.av_interleaved_write_frame (some c) (some env.encoded),
         Event.av_write_trailer (some c),
         Event.avcodec_free_context (some e),
         Event.av_packet_free (some env.encoded),
         Event.avformat_free_context c,
         Event.ff_filter_frame frame] := by
  obtain ⟨h1, h2⟩ := henv
  have n1 : ¬ env.avcodec_encode_video2 < 0 := by omega
  by_cases h3 : env.av_interleaved_write_frame = 0 <;>
    simp [snapshot_filter_frame, snapshot_save, snapshot_save_encode, snapshot_open,
      snapshot_close, hc, he, hp, hb, n1, h2, h3]

theorem snapshot_filter_frames_completes (c : AVFormatContext) (e : AVCodecContext)
    (pre : List (SnapshotEnv × AVFrame)) (s : SnapshotContext) (p : AVPacket)
    (hc : s.ofmt_ctx = some c) (he : s.codec_ctx = some e) (hp : s.out_packet = some p)
    (hb : s.bEnable ≠ 0) (hpre : ∀ x ∈ pre, x.1.buffers)
    (env : SnapshotEnv) (frame : AVFrame) (henv : env.produces)
    (post : List (SnapshotEnv × AVFrame)) :
    (snapshot_filter_frames s (pre ++ (env, frame) :: post)).final =
      some { s with bEnable := 0, ofmt_ctx := none, codec_ctx := none, out_packet := none } ∧
    container_calls (snapshot_filter_frames s (pre ++ (env, frame) :: post)).trace =
      [Event.av_interleaved_write_frame (some c) (some env.encoded),
       Event.av_write_trailer (some c),
       Event.avformat_free_context c] ∧
    forwarded (snapshot_filter_frames s (pre ++ (env, frame) :: post)).trace =
      (pre ++ (env, frame) :: post).map (fun x => x.2) ∧
    (snapshot_filter_frames s (pre ++ (env, frame) :: post)).rets =
      (pre ++ (env, frame) :: post).map (fun x => x.1.ff_filter_frame) := by
  induction pre generalizing s p with
  | nil =>
    have hstep := snapshot_filter_frame_produces env s frame c e p hc he hp hb henv
    have hrest := snapshot_filter_frames_disarmed
      { s with bEnable := 0, ofmt_ctx := none, codec_ctx := none, out_packet := none }
      rfl post
    simp only [List.nil_append, snapshot_filter_frames, hstep, hrest]
    simp [container_calls, container_calls_map_filter_frame, forwarded,
      forwarded_map_filter_frame]
  | cons x rest ih =>
    obtain ⟨env0, frame0⟩ := x
    have h0 : env0.buffers := hpre (env0, frame0) (List.mem_cons_self _ _)
    have hstep := snapshot_filter_frame_buffers env0 s frame0 c e p hc he hp hb h0
    have hnext := ih { s with out_packet := some env0.encoded } env0.encoded hc he rfl hb
      (fun y hy => hpre y (List.mem_cons_of_mem _ hy))
    simp only [List.cons_append, snapshot_filter_frames, hstep]
    refine ⟨hnext.1, ?_, ?_, ?_⟩
    · simpa [container_calls] using hnext.2.1
    · simpa [forwarded] using hnext.2.2.1
    · simpa using hnext.2.2.2

/-- C10: a job is in flight on the output context `c` with the encoder context `e` and the
packet `p`, and the command `filename y` arrives.  Then for any frames that follow, whatever
the collaborators answer, the filter acquires nothing (no `mkdir`, no second output context,
no second encoder context), submits frames to `e` only, writes packet and trailer to `c`
only, and at no point of the trace is more than one output context open.  And when the
encoder, after buffering any number of frames, returns its packet on a later frame, every
call returns, the only container calls of the whole run are writing that packet to `c`,
writing the trailer to `c` and freeing `c`, every frame is forwarded, and at the end the
filter is disarmed and holds no handle: the command has opened nothing for `y`. -/
theorem snapshot_rearm_in_flight (s : SnapshotContext) (c : AVFormatContext)
    (e : AVCodecContext) (p : AVPacket)
    (hc : s.ofmt_ctx = some c) (he : s.codec_ctx = some e) (hp : s.out_packet = some p)
    (strdup_ok : Bool) (y : CString) :
    (∀ inputs : List (SnapshotEnv × AVFrame),
      (∀ ev ∈ (snapshot_filter_frames
          (snapshot_process_command strdup_ok s "filename".toList y).2 inputs).trace,
        ev.acquires = false) ∧
      (∀ ctx pkt frame, Event.avcodec_encode_video2 ctx pkt frame ∈ (snapshot_filter_frames
          (snapshot_process_command strdup_ok s "filename".toList y).2 inputs).trace →
        ctx = some e) ∧
      (∀ ctx pkt, Event.av_interleaved_write_frame ctx pkt ∈ (snapshot_filter_frames
          (snapshot_process_command strdup_ok s "filename".toList y).2 inputs).trace →
        ctx = some c) ∧
      (∀ ctx, Event.av_write_trailer ctx ∈ (snapshot_filter_frames
          (snapshot_process_command strdup_ok s "filename".toList y).2 inputs).trace →
        ctx = some c) ∧
      (∀ k, containers_open 1 ((snapshot_filter_frames
          (snapshot_process_command strdup_ok s "filename".toList y).2 inputs).trace.take k)
        ≤ 1)) ∧
    (∀ (pre : List (SnapshotEnv × AVFrame)) (env : SnapshotEnv) (frame : AVFrame)
        (post : List (SnapshotEnv × AVFrame)),
      (∀ x ∈ pre, x.1.buffers) → env.produces →
      (snapshot_filter_frames (snapshot_process_command strdup_ok s "filename".toList y).2
          (pre ++ (env, frame) :: post)).final =
        some { s with filename := (av_opt_set strdup_ok y).2, bEnable := 0, ofmt_ctx := none,
                      codec_ctx := none, out_packet := none } ∧
      container_calls (snapshot_filter_frames
          (snapshot_process_command strdup_ok s "filename".toList y).2
          (pre ++ (env, frame) :: post)).trace =
        [Event.av_interleaved_write_frame (some c) (some env.encoded),
         Event.av_write_trailer (some c),
         Event.avformat_free_context c] ∧
      forwarded (snapshot_filter_frames
          (snapshot_process_command strdup_ok s "filename".toList y).2
          (pre ++ (env, frame) :: post)).trace =
        (pre ++ (env, frame) :: post).map (fun x => x.2) ∧
      (snapshot_filter_frames (snapshot_process_command strdup_ok s "filename".toList y).2
          (pre ++ (env, frame) :: post)).rets =
        (pre ++ (env, frame) :: post).map (fun x => x.1.ff_filter_frame)) := by
  have hcmd : (snapshot_process_command strdup_ok s "filename".toList y).2 =
      { s with filename := (av_opt_set strdup_ok y).2, bEnable := 1 } := by
    simp [snapshot_process_command]
  rw [hcmd]
  constructor
  · intro inputs
    have harmed : job_or_disarmed c e
        { s with filename := (av_opt_set strdup_ok y).2, bEnable := 1 } := Or.inl ⟨hc, he⟩
    have hall := snapshot_filter_frames_in_flight c e inputs _ harmed
    refine ⟨fun ev hev => Event.within_acquires (hall ev hev), ?_, ?_, ?_, ?_⟩
    · intro ctx pkt frame hev
      exact hall _ hev
    · intro ctx pkt hev
      exact hall _ hev
    · intro ctx hev
      exact hall _ hev
    · intro k
      apply containers_open_le
      intro ev hev
      exact Event.within_acquires (hall ev (List.mem_of_mem_take hev))
  · intro pre env frame post hpre henv
    exact snapshot_filter_frames_completes c e pre
      { s with filename := (av_opt_set strdup_ok y).2, bEnable := 1 } p hc he hp
      (by simp) hpre env frame henv post

theorem snapshot_rearm_in_flight_witness :
    sample_in_flight.ofmt_ctx = some sample_container ∧
    sample_in_flight.codec_ctx = some sample_codec_ctx ∧
    sample_in_flight.out_packet = some { data := [9] } ∧
    (∀ x ∈ [(env_buffering, sample_frame)], x.1.buffers) ∧ env_ok.produces ∧
    container_calls (snapshot_filter_frames
        (snapshot_process_command true sample_in_flight "filename".toList "y.png".toList).2
        [(env_buffering, sample_frame), (env_ok, sample_frame), (env_ok, sample_frame)]).trace =
      [Event.av_interleaved_write_frame (some sample_container) (some { data := [9] }),
       Event.av_write_trailer (some sample_container),
       Event.avformat_free_context sample_container] :=
  ⟨by decide, by decide, by decide, by decide, by decide,
    ((snapshot_rearm_in_flight sample_in_flight sample_container sample_codec_ctx
      { data := [9] } (by decide) (by decide) (by decide) true "y.png".toList).2
      [(env_buffering, sample_frame)] env_ok sample_frame [(env_ok, sample_frame)]
      (by decide) (by decide)).2.1⟩

theorem snapshot_path_fits (d x : CString) (h : d.length + 1 + x.length ≤ 1023) :
    av_strlcat (av_strlcat (av_strlcpy d 1024) ['/'] 1024) x 1024 = d ++ '/' :: x := by
  have h1 : av_strlcpy d 1024 = d := by
    simp only [av_strlcpy]
    exact List.take_of_length_le (by omega)
  have h2 : av_strlcat d ['/'] 1024 = d ++ ['/'] := by
    simp only [av_strlcat, av_strlcpy]
    rw [if_neg (by omega)]
    congr 1
    exact List.take_of_length_le (by simp; omega)
  rw [h1, h2]
  simp only [av_strlcat, av_strlcpy, List.length_append, List.length_singleton]
  split
  · have hx : x = [] := List.eq_nil_of_length_eq_zero (by omega)
    simp [hx]
  · rw [List.take_of_length_le (by omega)]
    simp

/-- C2, amended: on an idle filter with directory `d`, when `d/x` has at most 1023 chars,
the command `filename x` stores `x`, and during the next frame every collaborator call
succeeds, with an encoder that declares its pixel formats and returns the packet for that
frame, then `snapshot_filter_frame` returns and the calls made are exactly: create `d`,
allocate the container for `d ++ "/" ++ x`, set up and open an encoder with the width and
height of the frame, encode the frame, write one packet and then the trailer to that
container, release encoder, packet and container, forward the frame; afterwards the
filter is disarmed and holds neither handle. -/
theorem snapshot_arm_then_frame (s : SnapshotContext) (d x : CString) (frame : AVFrame)
    (env : SnapshotEnv) (vc : Int) (codec : AVCodec) (fmts : List Int)
    (hofmt : s.ofmt_ctx = none) (hcodec : s.codec_ctx = none) (hdir : s.dir = some d)
    (hlen : d.length + 1 + x.length ≤ 1023) (hok : env.job_succeeds vc codec fmts) :
    snapshot_filter_frame env
        (snapshot_process_command true s "filename".toList x).2 frame =
      SnapshotResult.returns env.ff_filter_frame
        { s with filename := some x, bEnable := 0, ofmt_ctx := none, codec_ctx := none,
                 codec := some codec, out_packet := none }
        [Event.mkdir d,
         Event.avformat_alloc_output_context2 (d ++ '/' :: x),
         Event.av_packet_alloc,
         Event.avcodec_find_encoder vc,
         Event.avformat_new_stream { filename := d ++ '/' :: x, video_codec := vc } codec,
         Event.avformat_write_header { filename := d ++ '/' :: x, video_codec := vc },
         Event.avcodec_alloc_context3 codec,
         Event.avcodec_open2
           { codec := codec, width := frame.width, height := frame.height,
             pix_fmt := fmts.headD (-1), time_base := { num := 1, den := 1 } },
         Event.avcodec_encode_video2
           (some { codec := codec, width := frame.width, height := frame.height,
                   pix_fmt := fmts.headD (-1), time_base := { num := 1, den := 1 } })
           (some { data := [] }) frame,
         Event.av_interleaved_write_frame
           (some { filename := d ++ '/' :: x, video_codec := vc }) (some env.encoded),
         Event.av_write_trailer (some { filename := d ++ '/' :: x, video_codec := vc }),
         Event.avcodec_free_context
           (some { codec := codec, width := frame.width, height := frame.height,
                   pix_fmt := fmts.headD (-1), time_base := { num := 1, den := 1 } }),
         Event.av_packet_free (some env.encoded),
         Event.avformat_free_context { filename := d ++ '/' :: x, video_codec := vc },
         Event.ff_filter_frame frame] := by
  obtain ⟨h1, h2, h3, h4, h5, hf, h6, h7, h8, h9, h10, h11, h12⟩ := hok
  have hpath := snapshot_path_fits d x hlen
  have n2 : ¬ env.alloc_output < 0 := by omega
  have n7 : ¬ env.avformat_write_header < 0 := by omega
  have n9 : ¬ env.avcodec_open2 < 0 := by omega
  have n10 : ¬ env.avcodec_encode_video2 < 0 := by omega
  by_cases hw : env.av_interleaved_write_frame = 0 <;>
    simp [snapshot_filter_frame, snapshot_process_command, av_opt_set, snapshot_save,
      snapshot_save_encode, snapshot_open, snapshot_open_output, snapshot_close, hofmt,
      hcodec, hdir, hpath, h1, n2, h3, h4, h5, hf, h6, n7, h8, n9, n10, h11, hw]

/-- C2, counterexample: three jobs started by one command and one frame on an idle filter
that do not end as the claim says.  With `mkdir` failing no container is opened.  With an
encoder that buffers the frame, no packet and no trailer is written and the filter is still
armed with both handles held.  With a file name of 1100 chars every call succeeds, but the
container is opened for the first 1023 chars of `d/` followed by the name. -/
theorem snapshot_arm_then_frame_counterexample :
    snapshot_filter_frame env_mkdir_fails sample_armed sample_frame =
      SnapshotResult.returns 0 { sample_armed with bEnable := 0 }
        [Event.mkdir "snapshot".toList, Event.ff_filter_frame sample_frame] ∧
    snapshot_filter_frame env_buffering sample_armed sample_frame =
      SnapshotResult.returns 0 sample_in_flight
        [Event.mkdir "snapshot".toList,
         Event.avformat_alloc_output_context2 "snapshot/x.png".toList,
         Event.av_packet_alloc,
         Event.avcodec_find_encoder 61,
         Event.avformat_new_stream sample_container sample_encoder,
         Event.avformat_write_header sample_container,
         Event.avcodec_alloc_context3 sample_encoder,
         Event.avcodec_open2 sample_codec_ctx,
         Event.avcodec_encode_video2 (some sample_codec_ctx) (some { data := [] }) sample_frame,
         Event.ff_filter_frame sample_frame] ∧
    sample_in_flight.bEnable = 1 ∧
    sample_in_flight.ofmt_ctx = some sample_container ∧
    sample_in_flight.codec_ctx = some sample_codec_ctx ∧
    (snapshot_filter_frame env_ok
        (snapshot_process_command true (snapshot_fresh (some "d".toList) none)
          "filename".toList long_name).2 sample_frame).trace[1]? =
      some (Event.avformat_alloc_output_context2 ("d/".toList ++ List.replicate 1021 'a')) ∧
    Event.avformat_alloc_output_context2 ("d/".toList ++ long_name) ∉
      (snapshot_filter_frame env_ok
        (snapshot_process_command true (snapshot_fresh (some "d".toList) none)
          "filename".toList long_name).2 sample_frame).trace := by
  decide

theorem snapshot_arm_then_frame_witness :
    env_ok.job_succeeds 61 sample_encoder [2] ∧
    snapshot_filter_frame env_ok
        (snapshot_process_command true sample_snapshot "filename".toList "x.png".toList).2
        sample_frame =
      SnapshotResult.returns 0
        { sample_snapshot with filename := some "x.png".toList, codec := some sample_encoder }
        [Event.mkdir "snapshot".toList,
         Event.avformat_alloc_output_context2 "snapshot/x.png".toList,
         Event.av_packet_alloc,
         Event.avcodec_find_encoder 61,
         Event.avformat_new_stream sample_container sample_encoder,
         Event.avformat_write_header sample_container,
         Event.avcodec_alloc_context3 sample_encoder,
         Event.avcodec_open2 sample_codec_ctx,
         Event.avcodec_encode_video2 (some sample_codec_ctx) (some { data := [] }) sample_frame,
         Event.av_interleaved_write_frame (some sample_container) (some { data := [9] }),
         Event.av_write_trailer (some sample_container),
         Event.avcodec_free_context (some sample_codec_ctx),
         Event.av_packet_free (some { data := [9] }),
         Event.avformat_free_context sample_container,
         Event.ff_filter_frame sample_frame] :=
  ⟨by decide,
    snapshot_arm_then_frame sample_snapshot "snapshot".toList "x.png".toList sample_frame
      env_ok 61 sample_encoder [2] rfl rfl rfl (by decide) (by decide)⟩

/-- C3, evaluated at the failing inputs: an armed idle filter receives a frame while
`avcodec_find_encoder` finds nothing (first two facts) or `avcodec_alloc_context3`
returns `NULL` (last two).  `snapshot_open` releases everything but returns `0`, so
`snapshot_save` does not stop at `if (ret < 0)` and calls `avcodec_encode_video2` with a
`NULL` encoder context and a `NULL` packet, on which the run ends in a fault. -/
theorem snapshot_encodes_after_failed_open :
    snapshot_open env_no_encoder sample_armed sample_frame =
      SnapshotResult.returns 0 { sample_armed with codec := none }
        [Event.mkdir "snapshot".toList,
         Event.avformat_alloc_output_context2 "snapshot/x.png".toList,
         Event.av_packet_alloc,
         Event.avcodec_find_encoder 61,
         Event.avcodec_free_context none,
         Event.av_packet_free (some { data := [] }),
         Event.avformat_free_context sample_container] ∧
    snapshot_filter_frame env_no_encoder sample_armed sample_frame =
      SnapshotResult.faults
        [Event.mkdir "snapshot".toList,
         Event.avformat_alloc_output_context2 "snapshot/x.png".toList,
         Event.av_packet_alloc,
         Event.avcodec_find_encoder 61,
         Event.avcodec_free_context none,
         Event.av_packet_free (some { data := [] }),
         Event.avformat_free_context sample_container,
         Event.avcodec_encode_video2 none none sample_frame] ∧
    snapshot_open env_no_context sample_armed sample_frame =
      SnapshotResult.returns 0 { sample_armed with codec := some sample_encoder }
        [Event.mkdir "snapshot".toList,
         Event.avformat_alloc_output_context2 "snapshot/x.png".toList,
         Event.av_packet_alloc,
         Event.avcodec_find_encoder 61,
         Event.avformat_new_stream sample_container sample_encoder,
         Event.avformat_write_header sample_container,
         Event.avcodec_alloc_context3 sample_encoder,
         Event.avcodec_free_context none,
         Event.av_packet_free (some { data := [] }),
         Event.avformat_free_context sample_container] ∧
    snapshot_filter_frame env_no_context sample_armed sample_frame =
      SnapshotResult.faults
        [Event.mkdir "snapshot".toList,
         Event.avformat_alloc_output_context2 "snapshot/x.png".toList,
         Event.av_packet_alloc,
         Event.avcodec_find_encoder 61,
         Event.avformat_new_stream sample_container sample_encoder,
         Event.avformat_write_header sample_container,
         Event.avcodec_alloc_context3 sample_encoder,
         Event.avcodec_free_context none,
         Event.av_packet_free (some { data := [] }),
         Event.avformat_free_context sample_container,
         Event.avcodec_encode_video2 none none sample_frame] := by
  decide

/-- C1, evaluated at the failing inputs: an armed idle filter receives a frame and the
frame never reaches the output link.  When the encoder found declares no pixel formats,
line 146 reads `pix_fmts[0]` through `NULL` right after `avcodec_alloc_context3`.  When no
encoder is found, or no encoder context or no packet can be allocated, `snapshot_save`
hands `NULL` to `avcodec_encode_video2`.  In each case the run ends in a fault before
`ff_filter_frame` is called. -/
theorem snapshot_fault_drops_frame :
    snapshot_filter_frame env_no_pix_fmts sample_armed sample_frame =
      SnapshotResult.faults
        [Event.mkdir "snapshot".toList,
         Event.avformat_alloc_output_context2 "snapshot/x.png".toList,
         Event.av_packet_alloc,
         Event.avcodec_find_encoder 61,
         Event.avformat_new_stream sample_container { id := 13, pix_fmts := none },
         Event.avformat_write_header sample_container,
         Event.avcodec_alloc_context3 { id := 13, pix_fmts := none }] ∧
    forwarded (snapshot_filter_frame env_no_pix_fmts sample_armed sample_frame).trace = [] ∧
    forwarded (snapshot_filter_frame env_no_encoder sample_armed sample_frame).trace = [] ∧
    forwarded (snapshot_filter_frame env_no_context sample_armed sample_frame).trace = [] ∧
    snapshot_filter_frame env_no_packet sample_armed sample_frame =
      SnapshotResult.faults
        [Event.mkdir "snapshot".toList,
         Event.avformat_alloc_output_context2 "snapshot/x.png".toList,
         Event.av_packet_alloc,
         Event.avcodec_find_encoder 61,
         Event.avformat_new_stream sample_container sample_encoder,
         Event.avformat_write_header sample_container,
         Event.avcodec_alloc_context3 sample_encoder,
         Event.avcodec_open2 sample_codec_ctx,
         Event.avcodec_encode_video2 (some sample_codec_ctx) none sample_frame] := by
  decide

theorem snapshot_close_handles (s : SnapshotContext) :
    (snapshot_close s).1.ofmt_ctx = none ∧ (snapshot_close s).1.codec_ctx = none := by
  unfold snapshot_close
  cases h : s.ofmt_ctx <;> simp [h]

theorem snapshot_open_fail_handles (ret0 : Int) (s : SnapshotContext) (t0 : List Event)
    (ret : Int) (s1 : SnapshotContext) (t : List Event)
    (h : snapshot_open_fail ret0 s t0 = SnapshotResult.returns ret s1 t) :
    s1.ofmt_ctx = none ∧ s1.codec_ctx = none := by
  simp only [snapshot_open_fail, SnapshotResult.returns.injEq] at h
  rw [← h.2.1]
  exact snapshot_close_handles s

theorem snapshot_open_output_negative (env : SnapshotEnv) (s : SnapshotContext)
    (frame : AVFrame) (f : CString) (t0 : List Event)
    (h1 : s.ofmt_ctx = none) (h2 : s.codec_ctx = none)
    (ret : Int) (s1 : SnapshotContext) (t : List Event)
    (h : snapshot_open_output env s frame f t0 = SnapshotResult.returns ret s1 t)
    (hneg : ret < 0) :
    s1.ofmt_ctx = none ∧ s1.codec_ctx = none := by
  unfold snapshot_open_output at h
  dsimp only at h
  repeat' split at h
  all_goals first
    | exact snapshot_open_fail_handles _ _ _ _ _ _ h
    | (simp only [SnapshotResult.returns.injEq] at h
       obtain ⟨hr, hs, _⟩ := h
       subst hs
       first
         | exact ⟨h1, h2⟩
         | exact ⟨rfl, h2⟩
         | omega)
    | simp at h

theorem snapshot_open_negative (env : SnapshotEnv) (s : SnapshotContext) (frame : AVFrame)
    (hinv : s.ofmt_ctx = none → s.codec_ctx = none)
    (ret : Int) (s1 : SnapshotContext) (t : List Event)
    (h : snapshot_open env s frame = SnapshotResult.returns ret s1 t) (hneg : ret < 0) :
    s1.ofmt_ctx = none ∧ s1.codec_ctx = none := by
  unfold snapshot_open at h
  cases ho : s.ofmt_ctx with
  | some c =>
    simp only [ho, Option.isSome_some, if_true, SnapshotResult.returns.injEq] at h
    omega
  | none =>
    have hc := hinv ho
    simp only [ho, Option.isSome_none, Bool.false_eq_true, if_false] at h
    cases hd : s.dir with
    | none =>
      simp only [hd] at h
      exact snapshot_open_output_negative env s frame _ _ ho hc ret s1 t h hneg
    | some d =>
      simp only [hd] at h
      by_cases hm : env.mkdir = -1 ∧ env.errno ≠ EEXIST
      · rw [if_pos hm] at h
        simp only [SnapshotResult.returns.injEq] at h
        rw [← h.2.1]
        exact ⟨ho, hc⟩
      · rw [if_neg hm] at h
        exact snapshot_open_output_negative env s frame _ _ ho hc ret s1 t h hneg

theorem snapshot_save_encode_negative (env : SnapshotEnv) (s : SnapshotContext)
    (frame : AVFrame) (t0 : List Event) (ret : Int) (s1 : SnapshotContext) (t : List Event)
    (h : snapshot_save_encode env s frame t0 = SnapshotResult.returns ret s1 t)
    (hneg : ret < 0) :
    s1.ofmt_ctx = none ∧ s1.codec_ctx = none := by
  unfold snapshot_save_encode at h
  dsimp only at h
  repeat' split at h
  all_goals first
    | (simp only [SnapshotResult.returns.injEq] at h
       obtain ⟨hr, hs, _⟩ := h
       subst hs
       first
         | exact snapshot_close_handles _
         | omega)
    | simp at h

/-- Where the job does report a failure, it is abandoned as the specification says: when
`snapshot_save` returns a negative code on an armed filter whose handles are paired,
`snapshot_filter_frame` returns with the frame forwarded, and the filter is disarmed and
holds neither handle. -/
theorem snapshot_reported_failure_disarms (env : SnapshotEnv) (s : SnapshotContext)
    (frame : AVFrame) (hinv : s.ofmt_ctx = none → s.codec_ctx = none)
    (harmed : s.bEnable ≠ 0) (ret : Int) (s1 : SnapshotContext) (t : List Event)
    (hsave : snapshot_save env s frame = SnapshotResult.returns ret s1 t) (hneg : ret < 0) :
    snapshot_filter_frame env s frame =
      SnapshotResult.returns env.ff_filter_frame { s1 with bEnable := 0 }
        (t ++ [Event.ff_filter_frame frame]) ∧
    s1.ofmt_ctx = none ∧ s1.codec_ctx = none := by
  have hne : ret ≠ 0 := by omega
  constructor
  · unfold snapshot_filter_frame
    rw [if_pos harmed, hsave]
    simp [hne]
  · unfold snapshot_save at hsave
    cases ho : snapshot_open env s frame with
    | faults t0 => simp [ho] at hsave
    | returns ret0 s0 t0 =>
      simp only [ho] at hsave
      by_cases h0 : ret0 < 0
      · rw [if_pos h0] at hsave
        simp only [SnapshotResult.returns.injEq] at hsave
        obtain ⟨hr, hs, _⟩ := hsave
        subst hs
        exact snapshot_open_negative env s frame hinv ret0 s0 t0 ho h0
      · rw [if_neg h0] at hsave
        exact snapshot_save_encode_negative env s0 frame t0 ret s1 t hsave hneg

/-! ## Theorems on vsrc_watermark.c -/

theorem wrap_int64_of_range (x : Int) (h1 : -2 ^ 63 ≤ x) (h2 : x < 2 ^ 63) :
    wrap_int64 x = x := by
  unfold wrap_int64
  norm_num at h1 h2 ⊢
  omega

theorem wrap_int64_range (x : Int) : -2 ^ 63 ≤ wrap_int64 x ∧ wrap_int64 x < 2 ^ 63 := by
  unfold wrap_int64
  norm_num
  omega

theorem wrap_int64_add (a b : Int) : wrap_int64 (wrap_int64 a + b) = wrap_int64 (a + b) := by
  unfold wrap_int64
  norm_num
  omega

theorem watermark_read_one_frame_spec (url : CString) (packets : List ReadResult)
    (s : WatermarkContext) :
    (∀ pic, first_decoded_frame s.video_stream_index packets = some pic →
      0 ≤ (watermark_read_one_frame url s packets).1 ∧
      (watermark_read_one_frame url s packets).2.frame = some pic) ∧
    (first_decoded_frame s.video_stream_index packets = none →
      (watermark_read_one_frame url s packets).1 < 0) := by
  induction packets generalizing s with
  | nil => simp [first_decoded_frame, watermark_read_one_frame, AVERROR_EOF]
  | cons r rest ih =>
    simp only [first_decoded_frame, watermark_read_one_frame]
    by_cases h1 : r.ret < 0
    · simp [h1]
    · by_cases h2 : r.stream_index = s.video_stream_index
      · by_cases h3 : r.decode_ret < 0
        · have h3n : ¬ 0 ≤ r.decode_ret := by omega
          simpa [h1, h2, h3, h3n] using ih { s with frame := some r.picture }
        · have h3p : 0 ≤ r.decode_ret := by omega
          by_cases h4 : r.got_frame = 0
          · simpa [h1, h2, h3, h3p, h4] using ih { s with frame := some r.picture }
          · simp [h1, h2, h3, h3p, h4]
      · simpa [h1, h2] using ih s

theorem watermark_read_one_frame_keeps (url : CString) (packets : List ReadResult)
    (s : WatermarkContext) :
    (watermark_read_one_frame url s packets).2.pts = s.pts ∧
    (watermark_read_one_frame url s packets).2.frame_rate = s.frame_rate ∧
    (watermark_read_one_frame url s packets).2.time_base = s.time_base := by
  induction packets generalizing s with
  | nil => simp [watermark_read_one_frame]
  | cons r rest ih =>
    simp only [watermark_read_one_frame]
    by_cases h1 : r.ret < 0
    · simp [h1]
    · by_cases h2 : r.stream_index = s.video_stream_index
      · by_cases h3 : r.decode_ret < 0
        · simpa [h1, h2, h3] using ih { s with frame := some r.picture }
        · by_cases h4 : r.got_frame = 0
          · simpa [h1, h2, h3, h4] using ih { s with frame := some r.picture }
          · simp [h1, h2, h3, h4]
      · simpa [h1, h2] using ih s

theorem watermark_open_keeps (fs : CString → MediaFile) (s : WatermarkContext) :
    (watermark_open fs s).2.pts = s.pts ∧
    (watermark_open fs s).2.frame_rate = s.frame_rate ∧
    (watermark_open fs s).2.time_base = s.time_base := by
  unfold watermark_open
  cases hn : s.pFileName with
  | none => simp
  | some name =>
    by_cases h1 : (fs name).avformat_open_input < 0
    · simp [h1]
    · by_cases h2 : (fs name).av_find_best_stream < 0
      · simp [h1, h2]
      · by_cases h3 : (fs name).avcodec_open2 < 0
        · simp [h1, h2, h3]
        · simpa [h1, h2, h3] using watermark_read_one_frame_keeps name (fs name).packets _

theorem watermark_close_eq (s : WatermarkContext) :
    watermark_close s = { s with frame := none, codec_ctx := none, format_ctx := none } := by
  obtain ⟨name, fmt, cc, dec, idx, frame, pts, tb, fr⟩ := s
  cases frame <;> cases cc <;> cases fmt <;> simp [watermark_close]


theorem watermark_request_frame_cached (down : Int) (s : WatermarkContext) (cached : AVFrame)
    (hf : s.frame = some cached) :
    watermark_request_frame down s =
      { ret := down
        state := { s with pts := wrap_int64 (s.pts + 1) }
        out := [{ cached with pts := s.pts }] } := by
  simp only [watermark_request_frame, hf]

theorem watermark_request_frames_out (downs : List Int) (s : WatermarkContext)
    (cached : AVFrame) (hf : s.frame = some cached)
    (h1 : -2 ^ 63 ≤ s.pts) (h2 : s.pts < 2 ^ 63) :
    (watermark_request_frames s downs).2 =
      (List.range downs.length).map (fun (k : Nat) => { cached with pts := wrap_int64 (s.pts + k) }) ∧
    (watermark_request_frames s downs).1.frame = some cached := by
  induction downs generalizing s with
  | nil => simp [watermark_request_frames, hf]
  | cons down rest ih =>
    have hr := wrap_int64_range (s.pts + 1)
    have hstep := ih { s with pts := wrap_int64 (s.pts + 1) } hf hr.1 hr.2
    simp only [watermark_request_frames, watermark_request_frame_cached down s cached hf,
      List.length_cons, List.range_succ_eq_map, List.map_cons, List.map_map,
      List.singleton_append]
    refine ⟨?_, hstep.2⟩
    rw [hstep.1]
    congr 1
    · simp [wrap_int64_of_range s.pts h1 h2]
    · apply List.map_congr_left
      intro k _
      simp only [Function.comp, wrap_int64_add]
      congr 2
      push_cast
      ring

theorem watermark_open_eq_read (fs : CString → MediaFile) (s : WatermarkContext)
    (name : CString) (hn : s.pFileName = some name)
    (h1 : 0 ≤ (fs name).avformat_open_input) (h2 : 0 ≤ (fs name).av_find_best_stream)
    (h3 : 0 ≤ (fs name).avcodec_open2) :
    watermark_open fs s =
      watermark_read_one_frame name (watermark_opened (fs name) name s) (fs name).packets := by
  have n1 : ¬ (fs name).avformat_open_input < 0 := by omega
  have n2 : ¬ (fs name).av_find_best_stream < 0 := by omega
  have n3 : ¬ (fs name).avcodec_open2 < 0 := by omega
  simp [watermark_open, watermark_opened, hn, n1, n2, n3]

theorem watermark_open_cached (fs : CString → MediaFile) (s : WatermarkContext)
    (h : 0 ≤ (watermark_open fs s).1) :
    ∃ cached, (watermark_open fs s).2.frame = some cached := by
  cases hn : s.pFileName with
  | none => simp [watermark_open, hn, AVERROR, EINVAL] at h
  | some name =>
    by_cases h1 : (fs name).avformat_open_input < 0
    · simp only [watermark_open, hn, h1, if_true] at h; omega
    · by_cases h2 : (fs name).av_find_best_stream < 0
      · simp only [watermark_open, hn, h1, h2, if_true, if_false] at h; omega
      · by_cases h3 : (fs name).avcodec_open2 < 0
        · simp only [watermark_open, hn, h1, h2, h3, if_true, if_false] at h; omega
        · rw [watermark_open_eq_read fs s name hn (by omega) (by omega) (by omega)] at h ⊢
          have hspec := watermark_read_one_frame_spec name (fs name).packets
            (watermark_opened (fs name) name s)
          cases hfd : first_decoded_frame (watermark_opened (fs name) name s).video_stream_index
              (fs name).packets with
          | none => have := hspec.2 hfd; omega
          | some pic => exact ⟨pic, (hspec.1 pic hfd).2⟩

theorem watermark_init_cached (fs : CString → MediaFile) (s0 : WatermarkContext)
    (h : 0 ≤ (watermark_init fs s0).1) :
    ∃ cached, (watermark_init fs s0).2.frame = some cached ∧ (watermark_init fs s0).2.pts = 0 := by
  unfold watermark_init at h ⊢
  cases hn : s0.pFileName with
  | none => simp [hn, AVERROR, EINVAL] at h
  | some name =>
    simp only [hn] at h ⊢
    obtain ⟨cached, hc⟩ := watermark_open_cached fs _ h
    exact ⟨cached, hc, (watermark_open_keeps fs _).1⟩

/-- C4, amended: after a `watermark_init` that returned success a frame is cached, and `N`
consecutive `watermark_request_frame` calls with `N ≤ 2 ^ 63` emit exactly the frames
`cached` with `pts` set to `0, 1, ..., N - 1`, in that order and equal to `cached` in every
other field, whatever the output link returns; the cached frame is the same afterwards. -/
theorem watermark_request_frames_after_init (fs : CString → MediaFile)
    (s0 : WatermarkContext) (downs : List Int)
    (hinit : 0 ≤ (watermark_init fs s0).1) (hlen : downs.length ≤ 2 ^ 63) :
    ∃ cached, (watermark_init fs s0).2.frame = some cached ∧
      (watermark_request_frames (watermark_init fs s0).2 downs).2 =
        (List.range downs.length).map (fun (k : Nat) => { cached with pts := (k : Int) }) ∧
      (watermark_request_frames (watermark_init fs s0).2 downs).1.frame = some cached := by
  obtain ⟨cached, hc, hp⟩ := watermark_init_cached fs s0 hinit
  have hout := watermark_request_frames_out downs _ cached hc (by rw [hp]; norm_num)
    (by rw [hp]; norm_num)
  refine ⟨cached, hc, ?_, hout.2⟩
  rw [hout.1]
  apply List.map_congr_left
  intro k hk
  have hk2 : k < downs.length := List.mem_range.mp hk
  have : wrap_int64 ((watermark_init fs s0).2.pts + k) = k := by
    rw [hp, zero_add]
    apply wrap_int64_of_range
    · have : (0 : Int) ≤ k := Int.ofNat_nonneg k
      norm_num
      omega
    · have : (k : Int) < 2 ^ 63 := by
        have : k < 2 ^ 63 := lt_of_lt_of_le hk2 hlen
        exact_mod_cast this
      simpa using this
  simp only [this]

theorem watermark_request_frames_after_init_witness :
    0 ≤ (watermark_init sample_fs sample_watermark).1 ∧
    ∃ cached, (watermark_init sample_fs sample_watermark).2.frame = some cached ∧
      (watermark_request_frames (watermark_init sample_fs sample_watermark).2 [0, 0, 0]).2 =
        (List.range 3).map (fun (k : Nat) => { cached with pts := (k : Int) }) ∧
      (watermark_request_frames (watermark_init sample_fs sample_watermark).2
        [0, 0, 0]).1.frame = some cached :=
  ⟨by decide,
    watermark_request_frames_after_init sample_fs sample_watermark [0, 0, 0] (by decide)
      (by norm_num)⟩

theorem wrapped_timestamps_ne (cached : AVFrame) (n : Nat) (h : 2 ^ 63 < n) :
    (List.range n).map (fun (k : Nat) => { cached with pts := wrap_int64 (0 + (k : Int)) }) ≠
      (List.range n).map (fun (k : Nat) => { cached with pts := (k : Int) }) := by
  intro heq
  have hmem : (2 ^ 63 : ℕ) ∈ List.range n := List.mem_range.mpr h
  have hk := (List.map_inj_left.mp heq) _ hmem
  have hpts := congrArg AVFrame.pts hk
  simp only [wrap_int64] at hpts
  norm_num at hpts

theorem watermark_request_frames_overflow (s : WatermarkContext) (cached : AVFrame)
    (hf : s.frame = some cached) (hp : s.pts = 0) (downs : List Int) (n : Nat)
    (hlen : downs.length = n) (h : 2 ^ 63 < n) :
    (watermark_request_frames s downs).2 ≠
      (List.range n).map (fun (k : Nat) => { cached with pts := (k : Int) }) := by
  have hout := (watermark_request_frames_out downs s cached hf
    (by rw [hp]; norm_num) (by rw [hp]; norm_num)).1
  rw [hout, hp, hlen]
  exact wrapped_timestamps_ne _ _ h

/-- C4, counterexample: after a successful `watermark_init` on `a.png`, `2 ^ 63 + 1`
consecutive requests do not emit the timestamps `0, ..., 2 ^ 63`: the `int64_t` counter has
no value `2 ^ 63`. -/
theorem watermark_timestamps_leave_int64 :
    0 ≤ (watermark_init sample_fs sample_watermark).1 ∧
    (watermark_init sample_fs sample_watermark).2.frame = some (sample_picture 1) ∧
    (watermark_request_frames (watermark_init sample_fs sample_watermark).2
        (List.replicate (2 ^ 63 + 1) 0)).2 ≠
      (List.range (2 ^ 63 + 1)).map (fun (k : Nat) => { sample_picture 1 with pts := (k : Int) }) :=
  ⟨by decide, by decide,
    watermark_request_frames_overflow _ _ (by decide) (by decide) _ _
      (List.length_replicate _ _) (Nat.lt_succ_self _)⟩

/-- C5, amended: whatever the context, when the command `filename new_path` stores the
name and the file opens, has a video stream, its decoder opens and the read loop meets a
first decoded video frame `pic`, then afterwards `pts` is what it was before the command
(the command does not reset it), the cached frame is `pic`, and the next
`watermark_request_frame` emits `pic` stamped with that unchanged `pts`. -/
theorem watermark_swap_keeps_pts (fs : CString → MediaFile) (s : WatermarkContext)
    (new_path : CString) (pic : AVFrame) (down : Int)
    (hopen : 0 ≤ (fs new_path).avformat_open_input)
    (hstream : 0 ≤ (fs new_path).av_find_best_stream)
    (hdec : 0 ≤ (fs new_path).avcodec_open2)
    (hpic : first_decoded_frame (fs new_path).av_find_best_stream (fs new_path).packets =
      some pic) :
    (watermark_process_command true fs s "filename".toList new_path).2.pts = s.pts ∧
    (watermark_process_command true fs s "filename".toList new_path).2.frame = some pic ∧
    (watermark_request_frame down
        (watermark_process_command true fs s "filename".toList new_path).2).out =
      [{ pic with pts := s.pts }] := by
  have hcmd : (watermark_process_command true fs s "filename".toList new_path).2 =
      (watermark_open fs (watermark_close { s with pFileName := some new_path })).2 := by
    simp [watermark_process_command, av_opt_set]
  have hname : (watermark_close { s with pFileName := some new_path }).pFileName =
      some new_path := by
    rw [watermark_close_eq]
  have hpts : (watermark_close { s with pFileName := some new_path }).pts = s.pts := by
    rw [watermark_close_eq]
  have hread := watermark_open_eq_read fs _ new_path hname hopen hstream hdec
  have hspec := (watermark_read_one_frame_spec new_path (fs new_path).packets
    (watermark_opened (fs new_path) new_path
      (watermark_close { s with pFileName := some new_path }))).1 pic hpic
  have hk := (watermark_open_keeps fs (watermark_close { s with pFileName := some new_path })).1
  have h1 : (watermark_process_command true fs s "filename".toList new_path).2.pts = s.pts := by
    rw [hcmd, hk, hpts]
  have h2 : (watermark_process_command true fs s "filename".toList new_path).2.frame =
      some pic := by
    rw [hcmd, hread]
    exact hspec.2
  refine ⟨h1, h2, ?_⟩
  rw [watermark_request_frame_cached down _ pic h2, h1]

/-- C5, counterexample: after `watermark_init` on `a.png` and three requests the counter is
`3`; the command `filename b.png` succeeds and leaves it at `3`, and the next frame is the
picture of `b.png` with timestamp `3`, not `0`. -/
theorem watermark_swap_does_not_reset_pts :
    (watermark_request_frames (watermark_init sample_fs sample_watermark).2 [0, 0, 0]).1.pts = 3 ∧
    (watermark_process_command true sample_fs
      (watermark_request_frames (watermark_init sample_fs sample_watermark).2 [0, 0, 0]).1
      "filename".toList "b.png".toList).2.pts = 3 ∧
    (watermark_request_frame 0
      (watermark_process_command true sample_fs
        (watermark_request_frames (watermark_init sample_fs sample_watermark).2 [0, 0, 0]).1
        "filename".toList "b.png".toList).2).out = [{ sample_picture 2 with pts := 3 }] := by
  decide

theorem watermark_swap_keeps_pts_witness :
    (watermark_request_frame 0
      (watermark_process_command true sample_fs
        (watermark_request_frames (watermark_init sample_fs sample_watermark).2 [0, 0, 0]).1
        "filename".toList "b.png".toList).2).out = [{ sample_picture 2 with pts := 3 }] :=
  (watermark_swap_keeps_pts sample_fs
    (watermark_request_frames (watermark_init sample_fs sample_watermark).2 [0, 0, 0]).1
    "b.png".toList (sample_picture 2) 0 (by decide) (by decide) (by decide) (by decide)).2.2

/-- C6, evaluated at the failing input: `cut.mp4` has a video stream whose only packet
gives no picture before the end of the file.  `watermark_open` fails with `AVERROR_EOF`,
but the frame allocated for the decoder stays in the context: after the command
`filename cut.mp4`, and likewise after `watermark_init` on that file, the context holds a
blank frame and `watermark_request_frame` emits it. -/
theorem watermark_failed_open_keeps_blank_frame :
    (watermark_open sample_fs (watermark_close
      { (watermark_init sample_fs sample_watermark).2 with
        pFileName := some "cut.mp4".toList })).1 = AVERROR_EOF ∧
    (watermark_process_command true sample_fs (watermark_init sample_fs sample_watermark).2
      "filename".toList "cut.mp4".toList).2.frame = some blank_frame ∧
    (watermark_request_frame 0
      (watermark_process_command true sample_fs (watermark_init sample_fs sample_watermark).2
        "filename".toList "cut.mp4".toList).2).out = [{ blank_frame with pts := 0 }] ∧
    (watermark_init sample_fs (watermark_fresh (some "cut.mp4".toList) ⟨25, 1⟩)).1 = AVERROR_EOF ∧
    (watermark_request_frame 0
      (watermark_init sample_fs (watermark_fresh (some "cut.mp4".toList) ⟨25, 1⟩)).2).out =
        [{ blank_frame with pts := 0 }] := by
  decide

/-- C7, evaluated at the failing input: `avformat_open_input` fails on `gone.png`, so the
`watermark_open` call made by the command `filename gone.png` returns the negative
`AVERROR(ENOENT)` and no frame is cached, yet `watermark_process_command` returns `0`. -/
theorem watermark_process_command_hides_open_error :
    (watermark_open sample_fs (watermark_close
      { (watermark_init sample_fs sample_watermark).2 with
        pFileName := some "gone.png".toList })).1 = AVERROR ENOENT ∧
    AVERROR ENOENT < 0 ∧
    (watermark_process_command true sample_fs (watermark_init sample_fs sample_watermark).2
      "filename".toList "gone.png".toList).1 = 0 ∧
    (watermark_process_command true sample_fs (watermark_init sample_fs sample_watermark).2
      "filename".toList "gone.png".toList).2.frame = none := by
  decide

theorem watermark_run_rates (fs : CString → MediaFile) (ops : List WatermarkOp)
    (s : WatermarkContext) :
    (watermark_run fs s ops).frame_rate = s.frame_rate ∧
    (watermark_run fs s ops).time_base = s.time_base := by
  induction ops generalizing s with
  | nil => simp [watermark_run]
  | cons op rest ih =>
    cases op with
    | request_frame down =>
      have h := ih (watermark_request_frame down s).state
      have hs : (watermark_request_frame down s).state.frame_rate = s.frame_rate ∧
          (watermark_request_frame down s).state.time_base = s.time_base := by
        unfold watermark_request_frame
        cases s.frame <;> simp
      simp only [watermark_run]
      exact ⟨h.1.trans hs.1, h.2.trans hs.2⟩
    | process_command ok cmd args =>
      have h := ih (watermark_process_command ok fs s cmd args).2
      have hs : (watermark_process_command ok fs s cmd args).2.frame_rate = s.frame_rate ∧
          (watermark_process_command ok fs s cmd args).2.time_base = s.time_base := by
        have hk := watermark_open_keeps fs
          (watermark_close { s with pFileName := (av_opt_set ok args).2 })
        rw [watermark_close_eq] at hk
        unfold watermark_process_command
        dsimp only
        split_ifs
        · rw [watermark_close_eq]
          exact ⟨hk.2.1, hk.2.2⟩
        · exact ⟨rfl, rfl⟩
        · exact ⟨rfl, rfl⟩
      simp only [watermark_run]
      exact ⟨h.1.trans hs.1, h.2.trans hs.2⟩

theorem watermark_init_rates (fs : CString → MediaFile) (s0 : WatermarkContext) :
    (watermark_init fs s0).2.frame_rate = s0.frame_rate ∧
    (watermark_init fs s0).2.time_base = av_inv_q s0.frame_rate := by
  have hk := watermark_open_keeps fs { s0 with time_base := av_inv_q s0.frame_rate, pts := 0 }
  unfold watermark_init
  dsimp only
  split
  · exact ⟨rfl, rfl⟩
  · exact ⟨hk.2.1, hk.2.2⟩

/-- C9: for a source configured with the rate `num/den`, after `watermark_init` (whether
it succeeded or not) and any later requests and commands: if a frame is cached,
`watermark_config_props` returns `0` and writes the width, height and sample aspect ratio
of the cached frame, `frame_rate = num/den` and `time_base = den/num`; if none is cached it
returns the negative `AVERROR(EFAULT)` and leaves the link as it was. -/
theorem watermark_config_props_after_init (fs : CString → MediaFile)
    (s0 : WatermarkContext) (num den : Int) (hrate : s0.frame_rate = { num := num, den := den })
    (ops : List WatermarkOp) (outlink : AVFilterLink) :
    watermark_config_props (watermark_run fs (watermark_init fs s0).2 ops) outlink =
      (match (watermark_run fs (watermark_init fs s0).2 ops).frame with
       | some cached =>
         (0, { w := cached.width
               h := cached.height
               sample_aspect_ratio := cached.sample_aspect_ratio
               frame_rate := { num := num, den := den }
               time_base := { num := den, den := num } })
       | none => (AVERROR EFAULT, outlink)) ∧
    AVERROR EFAULT < 0 := by
  have hr := watermark_run_rates fs ops (watermark_init fs s0).2
  have hi := watermark_init_rates fs s0
  refine ⟨?_, by decide⟩
  unfold watermark_config_props
  cases hf : (watermark_run fs (watermark_init fs s0).2 ops).frame with
  | none => rfl
  | some cached =>
    simp only [hr.1, hr.2, hi.1, hi.2, hrate, av_inv_q]

theorem watermark_config_props_after_init_witness :
    (watermark_fresh (some "a.png".toList) { num := 10, den := 1 }).frame_rate =
      { num := 10, den := 1 } ∧
    watermark_config_props
        (watermark_run sample_fs
          (watermark_init sample_fs
            (watermark_fresh (some "a.png".toList) { num := 10, den := 1 })).2
          [WatermarkOp.request_frame 0, WatermarkOp.request_frame 0])
        { w := 0, h := 0, sample_aspect_ratio := { num := 0, den := 1 },
          frame_rate := { num := 0, den := 1 }, time_base := { num := 0, den := 1 } } =
      (0, { w := 64, h := 48, sample_aspect_ratio := { num := 1, den := 1 },
            frame_rate := { num := 10, den := 1 }, time_base := { num := 1, den := 10 } }) :=
  ⟨rfl,
    (watermark_config_props_after_init sample_fs
      (watermark_fresh (some "a.png".toList) { num := 10, den := 1 }) 10 1 rfl
      [WatermarkOp.request_frame 0, WatermarkOp.request_frame 0] _).1.trans (by decide)⟩

end FFmpeg
